import Mathlib

/-!
Verification development for the network-address and transport-establishment
layer of the Anoncoin client (netbase.cpp).  The C++ code is shallowly
embedded: the 16-byte address slot becomes sixteen explicit byte fields, the
fixed-size i2p destination buffer becomes a byte list, C strings become
`List Char`, and the machine loops become structurally recursive functions.
External collaborators (DNS, the i2p router, the address book, sockets) are
modelled as oracle functions in a `NetEnv` record.  The build is taken with
`ENABLE_I2PSAM`, `HAVE_GETADDRINFO_A` and `HAVE_INET_PTON` defined, matching
the i2p-enabled Linux configuration the spec describes.
-/

/-- C++ `std::string`, embedded as a list of characters. -/
abbrev Str := List Char

/-- Size of the fixed i2p destination buffer (`NATIVE_I2P_DESTINATION_SIZE`).
Modelled from the spec: the header defining the constant is not under `src/`;
the spec only requires a fixed-size base64 destination ending in the fixed
terminator, and 516 is the conventional base64 destination length. -/
def NATIVE_I2P_DESTINATION_SIZE : Nat := 516

/-- The unified address value (`CNetAddr`): a 16-byte slot `ip[0..15]` plus
the fixed-size i2p destination buffer `i2pDest`. -/
structure CNetAddr where
  ip0 : Nat
  ip1 : Nat
  ip2 : Nat
  ip3 : Nat
  ip4 : Nat
  ip5 : Nat
  ip6 : Nat
  ip7 : Nat
  ip8 : Nat
  ip9 : Nat
  ip10 : Nat
  ip11 : Nat
  ip12 : Nat
  ip13 : Nat
  ip14 : Nat
  ip15 : Nat
  i2pDest : List Nat
deriving DecidableEq

/-- Array indexing `ip[n]` of the 16-byte slot. -/
def ipIndex (a : CNetAddr) : Nat → Nat
  | 0 => a.ip0
  | 1 => a.ip1
  | 2 => a.ip2
  | 3 => a.ip3
  | 4 => a.ip4
  | 5 => a.ip5
  | 6 => a.ip6
  | 7 => a.ip7
  | 8 => a.ip8
  | 9 => a.ip9
  | 10 => a.ip10
  | 11 => a.ip11
  | 12 => a.ip12
  | 13 => a.ip13
  | 14 => a.ip14
  | 15 => a.ip15
  | _ => 0

/-- Source `CNetAddr::GetByte(n)` returns `ip[15-n]`. -/
def CNetAddr.GetByte (a : CNetAddr) (n : Nat) : Nat := ipIndex a (15 - n)

/-- Source `CNetAddr::Init()` / the default constructor: everything zeroed. -/
def zeroAddr : CNetAddr :=
  ⟨0, 0, 0, 0, 0, 0, 0, 0, 0, 0, 0, 0, 0, 0, 0, 0,
   List.replicate NATIVE_I2P_DESTINATION_SIZE 0⟩

/-- The constructor `CNetAddr(const struct in_addr&)`: the 12-byte
IPv4-in-IPv6 prefix `pchIPv4` followed by the four address bytes
(`b12.b13.b14.b15` is the dotted quad); `i2pDest` is zeroed. -/
def fromIPv4 (b12 b13 b14 b15 : Nat) : CNetAddr :=
  ⟨0, 0, 0, 0, 0, 0, 0, 0, 0, 0, 0xff, 0xff, b12, b13, b14, b15,
   List.replicate NATIVE_I2P_DESTINATION_SIZE 0⟩

/-- The constructor `CNetAddr(const struct in6_addr&)`: the 16 bytes are
copied in; `i2pDest` is zeroed. -/
def fromIPv6 (l : List Nat) : CNetAddr :=
  ⟨l.getD 0 0, l.getD 1 0, l.getD 2 0, l.getD 3 0, l.getD 4 0, l.getD 5 0,
   l.getD 6 0, l.getD 7 0, l.getD 8 0, l.getD 9 0, l.getD 10 0, l.getD 11 0,
   l.getD 12 0, l.getD 13 0, l.getD 14 0, l.getD 15 0,
   List.replicate NATIVE_I2P_DESTINATION_SIZE 0⟩

/-- Source `IsIPv4`: the first 12 bytes equal `pchIPv4 = 00..00 ff ff`. -/
def CNetAddr.IsIPv4 (a : CNetAddr) : Bool :=
  decide (a.ip0 = 0 ∧ a.ip1 = 0 ∧ a.ip2 = 0 ∧ a.ip3 = 0 ∧ a.ip4 = 0 ∧ a.ip5 = 0 ∧
    a.ip6 = 0 ∧ a.ip7 = 0 ∧ a.ip8 = 0 ∧ a.ip9 = 0 ∧ a.ip10 = 0xff ∧ a.ip11 = 0xff)

/-- Source `IsTor`: the first 6 bytes equal `pchOnionCat = FD 87 D8 7E EB 43`. -/
def CNetAddr.IsTor (a : CNetAddr) : Bool :=
  decide (a.ip0 = 0xFD ∧ a.ip1 = 0x87 ∧ a.ip2 = 0xD8 ∧ a.ip3 = 0x7E ∧
    a.ip4 = 0xEB ∧ a.ip5 = 0x43)

/-- Source `IsI2P`: the first 6 bytes equal `pchGarlicCat = FD 60 DB 4D DD B5`. -/
def CNetAddr.IsI2P (a : CNetAddr) : Bool :=
  decide (a.ip0 = 0xFD ∧ a.ip1 = 0x60 ∧ a.ip2 = 0xDB ∧ a.ip3 = 0x4D ∧
    a.ip4 = 0xDD ∧ a.ip5 = 0xB5)

/-- Source `IsIPv6`: not IPv4, not Tor, not I2P. -/
def CNetAddr.IsIPv6 (a : CNetAddr) : Bool :=
  !a.IsIPv4 && !a.IsTor && !a.IsI2P

/-- Source `IsNativeI2P`: the last 4 bytes of the destination buffer equal `"AAAA"`. -/
def CNetAddr.IsNativeI2P (a : CNetAddr) : Bool :=
  decide (a.i2pDest.drop (NATIVE_I2P_DESTINATION_SIZE - 4) = [65, 65, 65, 65])

/-- Source `GetI2pDestination`: the buffer contents if its first byte is nonzero,
otherwise the empty string (as a byte list). -/
def CNetAddr.GetI2pDestination (a : CNetAddr) : List Nat :=
  if a.i2pDest.getD 0 0 ≠ 0 then a.i2pDest else []

/-- Source `IsRFC1918` (private IPv4: 10/8, 192.168/16, 172.16/12). -/
def CNetAddr.IsRFC1918 (a : CNetAddr) : Bool :=
  a.IsIPv4 && (decide (a.GetByte 3 = 10) ||
    (decide (a.GetByte 3 = 192) && decide (a.GetByte 2 = 168)) ||
    (decide (a.GetByte 3 = 172) && decide (16 ≤ a.GetByte 2) && decide (a.GetByte 2 ≤ 31)))

/-- Source `IsRFC3927` (IPv4 autoconfig: 169.254/16). -/
def CNetAddr.IsRFC3927 (a : CNetAddr) : Bool :=
  a.IsIPv4 && (decide (a.GetByte 3 = 169) && decide (a.GetByte 2 = 254))

/-- Source `IsRFC3849` (IPv6 documentation range 2001:0DB8::/32). -/
def CNetAddr.IsRFC3849 (a : CNetAddr) : Bool :=
  decide (a.GetByte 15 = 0x20 ∧ a.GetByte 14 = 0x01 ∧ a.GetByte 13 = 0x0D ∧
    a.GetByte 12 = 0xB8)

/-- Source `IsRFC3964` (6to4 tunnelling: 2002::/16). -/
def CNetAddr.IsRFC3964 (a : CNetAddr) : Bool :=
  decide (a.GetByte 15 = 0x20 ∧ a.GetByte 14 = 0x02)

/-- Source `IsRFC6052` (well-known NAT64 prefix 64:FF9B::/96). -/
def CNetAddr.IsRFC6052 (a : CNetAddr) : Bool :=
  decide (a.ip0 = 0 ∧ a.ip1 = 0x64 ∧ a.ip2 = 0xFF ∧ a.ip3 = 0x9B ∧ a.ip4 = 0 ∧
    a.ip5 = 0 ∧ a.ip6 = 0 ∧ a.ip7 = 0 ∧ a.ip8 = 0 ∧ a.ip9 = 0 ∧ a.ip10 = 0 ∧ a.ip11 = 0)

/-- Source `IsRFC4380` (Teredo tunnelling: 2001::/32). -/
def CNetAddr.IsRFC4380 (a : CNetAddr) : Bool :=
  decide (a.GetByte 15 = 0x20 ∧ a.GetByte 14 = 0x01 ∧ a.GetByte 13 = 0 ∧
    a.GetByte 12 = 0)

/-- Source `IsRFC4862` (IPv6 link-local autoconfig FE80::/64). -/
def CNetAddr.IsRFC4862 (a : CNetAddr) : Bool :=
  decide (a.ip0 = 0xFE ∧ a.ip1 = 0x80 ∧ a.ip2 = 0 ∧ a.ip3 = 0 ∧ a.ip4 = 0 ∧
    a.ip5 = 0 ∧ a.ip6 = 0 ∧ a.ip7 = 0)

/-- Source `IsRFC4193` (unique local IPv6 FC00::/7). -/
def CNetAddr.IsRFC4193 (a : CNetAddr) : Bool :=
  decide (Nat.land (a.GetByte 15) 0xFE = 0xFC)

/-- Source `IsRFC6145` (IP/ICMP translation ::FFFF:0:0:0/96). -/
def CNetAddr.IsRFC6145 (a : CNetAddr) : Bool :=
  decide (a.ip0 = 0 ∧ a.ip1 = 0 ∧ a.ip2 = 0 ∧ a.ip3 = 0 ∧ a.ip4 = 0 ∧ a.ip5 = 0 ∧
    a.ip6 = 0 ∧ a.ip7 = 0 ∧ a.ip8 = 0xFF ∧ a.ip9 = 0xFF ∧ a.ip10 = 0 ∧ a.ip11 = 0)

/-- Source `IsRFC4843` (ORCHID 2001:10::/28). -/
def CNetAddr.IsRFC4843 (a : CNetAddr) : Bool :=
  decide (a.GetByte 15 = 0x20 ∧ a.GetByte 14 = 0x01 ∧ a.GetByte 13 = 0x00 ∧
    Nat.land (a.GetByte 12) 0xF0 = 0x10)

/-- Modelled from the spec: the process-wide configuration value
`-i2p.mydestination.publickey` read by `IsLocal` for i2p addresses.  The
configuration loader is out of scope (§1); its default is the empty string. -/
def i2pMyDestination : List Nat := []

/-- Source `IsLocal`: for an i2p address, equality with the node's configured
destination; otherwise IPv4 loopback/zero-host or the IPv6 loopback `::1`. -/
def CNetAddr.IsLocal (a : CNetAddr) : Bool :=
  if a.IsI2P then decide (i2pMyDestination = a.GetI2pDestination)
  else if a.IsIPv4 && (decide (a.GetByte 3 = 127) || decide (a.GetByte 3 = 0)) then true
  else decide (a.ip0 = 0 ∧ a.ip1 = 0 ∧ a.ip2 = 0 ∧ a.ip3 = 0 ∧ a.ip4 = 0 ∧ a.ip5 = 0 ∧
    a.ip6 = 0 ∧ a.ip7 = 0 ∧ a.ip8 = 0 ∧ a.ip9 = 0 ∧ a.ip10 = 0 ∧ a.ip11 = 0 ∧
    a.ip12 = 0 ∧ a.ip13 = 0 ∧ a.ip14 = 0 ∧ a.ip15 = 1)

/-- Source `IsValid`: i2p addresses are valid iff their destination is well formed;
otherwise reject the 3-byte-shifted corruption pattern (`pchIPv4+3`), the
unspecified address, the documentation range, and for IPv4 the
`INADDR_NONE`/zero addresses. -/
def CNetAddr.IsValid (a : CNetAddr) : Bool :=
  if a.IsI2P then a.IsNativeI2P
  else if decide (a.ip0 = 0 ∧ a.ip1 = 0 ∧ a.ip2 = 0 ∧ a.ip3 = 0 ∧ a.ip4 = 0 ∧
      a.ip5 = 0 ∧ a.ip6 = 0 ∧ a.ip7 = 0xff ∧ a.ip8 = 0xff) then false
  else if decide (a.ip0 = 0 ∧ a.ip1 = 0 ∧ a.ip2 = 0 ∧ a.ip3 = 0 ∧ a.ip4 = 0 ∧
      a.ip5 = 0 ∧ a.ip6 = 0 ∧ a.ip7 = 0 ∧ a.ip8 = 0 ∧ a.ip9 = 0 ∧ a.ip10 = 0 ∧
      a.ip11 = 0 ∧ a.ip12 = 0 ∧ a.ip13 = 0 ∧ a.ip14 = 0 ∧ a.ip15 = 0) then false
  else if a.IsRFC3849 then false
  else if a.IsIPv4 then
    !decide (a.ip12 = 0xff ∧ a.ip13 = 0xff ∧ a.ip14 = 0xff ∧ a.ip15 = 0xff) &&
    !decide (a.ip12 = 0 ∧ a.ip13 = 0 ∧ a.ip14 = 0 ∧ a.ip15 = 0)
  else true

/-- Source `IsRoutable`: valid and not in any of the excluded special ranges.  Note
the shipped code does not exclude RFC1918 (the exclusion is commented out in
the source). -/
def CNetAddr.IsRoutable (a : CNetAddr) : Bool :=
  a.IsValid && !(a.IsRFC3927 || a.IsRFC4862 ||
    (a.IsRFC4193 && !(a.IsTor || a.IsI2P)) || a.IsRFC4843 || a.IsLocal)

/-- The `Network` enumeration.  Modelled from the spec: the enum lives in the
header (not under `src/`); the spec gives the closed family set
{IPv4, IPv6, Tor, I2P, Unroutable} and the conventional declaration order. -/
inductive Network where
  | UNROUTABLE
  | IPV4
  | IPV6
  | TOR
  | NATIVE_I2P
deriving DecidableEq

/-- Numeric value of each `Network` enumerator (used as the group-key class
byte). -/
def Network.toByte : Network → Nat
  | .UNROUTABLE => 0
  | .IPV4 => 1
  | .IPV6 => 2
  | .TOR => 3
  | .NATIVE_I2P => 4

/-- Source `GetNetwork`: unroutable addresses report `NET_UNROUTABLE`; otherwise
dispatch on the marker prefix. -/
def CNetAddr.GetNetwork (a : CNetAddr) : Network :=
  if !a.IsRoutable then .UNROUTABLE
  else if a.IsIPv4 then .IPV4
  else if a.IsTor then .TOR
  else if a.IsI2P then .NATIVE_I2P
  else .IPV6

/-- The private extension of `Network` used by `GetExtNetwork`:
`NET_UNKNOWN = NET_MAX + 0` and `NET_TEREDO = NET_MAX + 1`. -/
inductive ExtNetwork where
  | UNROUTABLE
  | IPV4
  | IPV6
  | TOR
  | NATIVE_I2P
  | UNKNOWN
  | TEREDO
deriving DecidableEq

/-- Injection of the `Network` enumerators into the extended set. -/
def Network.toExt : Network → ExtNetwork
  | .UNROUTABLE => .UNROUTABLE
  | .IPV4 => .IPV4
  | .IPV6 => .IPV6
  | .TOR => .TOR
  | .NATIVE_I2P => .NATIVE_I2P

/-- Source `GetExtNetwork`: a null partner is `NET_UNKNOWN`; a Teredo address is
`NET_TEREDO`; otherwise the ordinary network. -/
def GetExtNetwork : Option CNetAddr → ExtNetwork
  | none => .UNKNOWN
  | some a => if a.IsRFC4380 then .TEREDO else a.GetNetwork.toExt

/-- The `Reachability` scores declared inside `GetReachabilityFrom`. -/
inductive Reachability where
  | REACH_UNREACHABLE
  | REACH_DEFAULT
  | REACH_TEREDO
  | REACH_IPV6_WEAK
  | REACH_IPV4
  | REACH_IPV6_STRONG
  | REACH_PRIVATE
deriving DecidableEq

/-- The nested switch of `GetReachabilityFrom` on (their network, our
network), with `fTunnel` deciding weak vs strong IPv6. -/
def reachSwitch (theirNet ourNet : ExtNetwork) (fTunnel : Bool) : Reachability :=
  match theirNet with
  | .IPV4 =>
    match ourNet with
    | .IPV4 => .REACH_IPV4
    | _ => .REACH_DEFAULT
  | .IPV6 =>
    match ourNet with
    | .TEREDO => .REACH_TEREDO
    | .IPV4 => .REACH_IPV4
    | .IPV6 => if fTunnel then .REACH_IPV6_WEAK else .REACH_IPV6_STRONG
    | _ => .REACH_DEFAULT
  | .NATIVE_I2P =>
    match ourNet with
    | .NATIVE_I2P => .REACH_PRIVATE
    | _ => .REACH_UNREACHABLE
  | .TOR =>
    match ourNet with
    | .IPV4 => .REACH_IPV4
    | .TOR => .REACH_PRIVATE
    | _ => .REACH_DEFAULT
  | .TEREDO =>
    match ourNet with
    | .TEREDO => .REACH_TEREDO
    | .IPV6 => .REACH_IPV6_WEAK
    | .IPV4 => .REACH_IPV4
    | _ => .REACH_DEFAULT
  | .UNKNOWN | .UNROUTABLE =>
    match ourNet with
    | .TEREDO => .REACH_TEREDO
    | .IPV6 => .REACH_IPV6_WEAK
    | .IPV4 => .REACH_IPV4
    | .TOR => .REACH_PRIVATE
    | .NATIVE_I2P => .REACH_PRIVATE
    | _ => .REACH_DEFAULT

/-- Source `GetReachabilityFrom`: unreachable unless routable, else the preference
table over extended networks. -/
def GetReachabilityFrom (a : CNetAddr) (partner : Option CNetAddr) : Reachability :=
  if !a.IsRoutable then .REACH_UNREACHABLE
  else
    reachSwitch (GetExtNetwork partner) (GetExtNetwork (some a))
      (a.IsRFC3964 || a.IsRFC6052 || a.IsRFC6145)

/-- The he.net provider-prefix test in `GetGroup` (2001:0470::/32, grouped as
/36). -/
def isHeNet (a : CNetAddr) : Bool :=
  decide (a.GetByte 15 = 0x20 ∧ a.GetByte 14 = 0x01 ∧ a.GetByte 13 = 0x04 ∧
    a.GetByte 12 = 0x70)

/-- The bit-prefix loop at the end of `GetGroup`: push whole bytes while at
least 8 bits remain, then one final byte OR-ed with the partial-bit mask.
`fuel` makes the `while` loop structurally recursive; it is always called
with `fuel = nBits`, which bounds the iteration count. -/
def groupTailGo : Nat → CNetAddr → Nat → Nat → List Nat
  | 0, _, _, _ => []
  | fuel + 1, a, nStartByte, nBits =>
    if 8 ≤ nBits then
      a.GetByte (15 - nStartByte) :: groupTailGo fuel a (nStartByte + 1) (nBits - 8)
    else if 0 < nBits then [Nat.lor (a.GetByte (15 - nStartByte)) (2 ^ nBits - 1)]
    else []

/-- The class byte followed by the bit-prefix bytes. -/
def groupPieces (nClass : Nat) (nStartByte nBits : Nat) (a : CNetAddr) : List Nat :=
  nClass :: groupTailGo nBits a nStartByte nBits

/-- Source `GetGroup`: the anti-correlation bucketing key. -/
def CNetAddr.GetGroup (a : CNetAddr) : List Nat :=
  if a.IsI2P then
    Network.NATIVE_I2P.toByte ::
      (List.range NATIVE_I2P_DESTINATION_SIZE).map (fun i => a.i2pDest.getD i 0)
  else
    -- nClass starts at NET_IPV6 and is set to 255 for local addresses; the
    -- branches below either override it or (he.net and plain IPv6) keep it.
    let nClassInit : Nat := if a.IsLocal then 255 else Network.IPV6.toByte
    if !a.IsRoutable then groupPieces Network.UNROUTABLE.toByte 0 0 a
    else if a.IsIPv4 || a.IsRFC6145 || a.IsRFC6052 then
      groupPieces Network.IPV4.toByte 12 16 a
    else if a.IsRFC3964 then groupPieces Network.IPV4.toByte 2 16 a
    else if a.IsRFC4380 then
      [Network.IPV4.toByte, Nat.xor (a.GetByte 3) 0xFF, Nat.xor (a.GetByte 2) 0xFF]
    else if a.IsTor then groupPieces Network.TOR.toByte 6 4 a
    else if isHeNet a then groupPieces nClassInit 0 36 a
    else groupPieces nClassInit 0 32 a

/-- Source `CService`: an address plus a 16-bit port. -/
structure CService extends CNetAddr where
  port : Nat
deriving DecidableEq

/-- Modelled from the spec: the base32 alphabet of `DecodeBase32` /
`EncodeBase32` (utilstrencodings, not under `src/`); the spec fixes the
16-character-base32 to 10-byte-payload codec for `.onion` names. -/
def base32Alphabet : List Char := ("abcdefghijklmnopqrstuvwxyz234567").toList

/-- Value of one base32 character: its position in the alphabet, or `none`
for a character outside the alphabet (the decode table entry `-1`). -/
def base32Val (c : Char) : Option Nat :=
  if base32Alphabet.indexOf c < base32Alphabet.length then
    some (base32Alphabet.indexOf c)
  else none

/-- The decode accumulator loop: shift 5 bits in per character, emit a byte
whenever at least 8 bits are available (`(acc >> (bits-8)) & 0xFF`, written
with division and remainder). -/
def decode32Core : List Nat → Nat → Nat → List Nat
  | [], _, _ => []
  | v :: vs, acc, bits =>
    if 8 ≤ bits + 5 then
      ((acc * 32 + v) / 2 ^ (bits + 5 - 8)) % 256 ::
        decode32Core vs (acc * 32 + v) (bits + 5 - 8)
    else
      decode32Core vs (acc * 32 + v) (bits + 5)

/-- Table lookup of every character; `none` as soon as one character is
outside the alphabet. -/
def base32Vals : Str → Option (List Nat)
  | [] => some []
  | c :: cs =>
    match base32Val c, base32Vals cs with
    | some v, some vs => some (v :: vs)
    | _, _ => none

/-- Modelled from the spec: `DecodeBase32` maps characters through the decode
table and runs the bit accumulator; any character outside the alphabet makes
the decode fail (yielding an empty byte list, which the caller's length check
rejects). -/
def DecodeBase32 (s : Str) : List Nat :=
  match base32Vals s with
  | some vs => decode32Core vs 0 0
  | none => []

/-- The inner `while (bits >= 5)` drain of the encode loop: emit a character
per 5 available bits.  `fuel` makes the loop structurally recursive; it is
always called with `fuel = bits`, which bounds the iteration count. -/
def encode32PushGo : Nat → Nat → Nat → List Char
  | 0, _, _ => []
  | fuel + 1, acc, bits =>
    if 5 ≤ bits then
      base32Alphabet.getD ((acc / 2 ^ (bits - 5)) % 32) (' ') ::
        encode32PushGo fuel acc (bits - 5)
    else []

/-- The encode drain entry point. -/
def encode32Push (acc bits : Nat) : List Char := encode32PushGo bits acc bits

/-- The encode accumulator loop: shift 8 bits in per byte, drain characters,
and pad the final partial group with low zero bits. -/
def encode32Core : List Nat → Nat → Nat → List Char
  | [], acc, bits =>
    if 0 < bits then [base32Alphabet.getD ((acc * 2 ^ (5 - bits)) % 32) (' ')] else []
  | b :: bs, acc, bits =>
    encode32Push (acc * 256 + b) (bits + 8) ++
      encode32Core bs (acc * 256 + b) ((bits + 8) % 5)

/-- Modelled from the spec: `EncodeBase32` over a byte list (no padding is
produced for the 10-byte onion payload). -/
def EncodeBase32 (bytes : List Nat) : Str := encode32Core bytes 0 0

/-- Suffix test used by the i2p string classifiers (`boost::ends_with`). -/
def endsWithStr (s suf : Str) : Bool := decide (s.drop (s.length - suf.length) = suf)

/-- Modelled from the spec: `isValidI2pAddress` (i2p utility header, not
under `src/`) — a full-length base64 destination ending in the fixed
terminator pattern `"AAAA"`. -/
def isValidI2pAddress (s : Str) : Bool :=
  decide (s.length = NATIVE_I2P_DESTINATION_SIZE) &&
    endsWithStr s (("AAAA").toList)

/-- Modelled from the spec: `isValidI2pB32` — a `.b32.i2p` short name. -/
def isValidI2pB32 (s : Str) : Bool := endsWithStr s ((".b32.i2p").toList)

/-- Modelled from the spec: `isStringI2pDestination` — either i2p address
syntax (a `.b32.i2p` short name or a raw base64 destination). -/
def isStringI2pDestination (s : Str) : Bool :=
  isValidI2pB32 s || isValidI2pAddress s

/-- The environment of external collaborators and process-wide settings:
the address book and i2p router lookups, the `IsI2PEnabled`/`fNameLookup`
flags, the platform numeric IPv6 parser and DNS resolver, the proxy
registry, and socket-level outcomes for the connection dispatcher. -/
structure NetEnv where
  addrbook : Str → Str
  router : Str → Str
  i2pEnabledFlag : Bool
  fNameLookup : Bool
  inet6 : Str → Option (List Nat)
  dns : Bool → Str → List CNetAddr
  nameProxy : CService
  proxyInfo : Network → CService
  connectOk : CService → Bool
  i2pConnectOk : List Nat → Bool
  proxyStream : List Nat

/-- Copy of a base64 destination string into the fixed-size buffer
(`memcpy(i2pDest, addr.c_str(), NATIVE_I2P_DESTINATION_SIZE)`). -/
def i2pBufferOf (s : Str) : List Nat :=
  (s.take NATIVE_I2P_DESTINATION_SIZE).map Char.toNat

/-- Writing the GarlicCat marker and the destination into an address. -/
def setGarlic (a : CNetAddr) (dest : Str) : CNetAddr :=
  { a with
    ip0 := 0xFD
    ip1 := 0x60
    ip2 := 0xDB
    ip3 := 0x4D
    ip4 := 0xDD
    ip5 := 0xB5
    i2pDest := i2pBufferOf dest }

/-- Writing the OnionCat marker and the 10 decoded payload bytes into an
address. -/
def setOnion (a : CNetAddr) (vch : List Nat) : CNetAddr :=
  { a with
    ip0 := 0xFD
    ip1 := 0x87
    ip2 := 0xD8
    ip3 := 0x7E
    ip4 := 0xEB
    ip5 := 0x43
    ip6 := vch.getD 0 0
    ip7 := vch.getD 1 0
    ip8 := vch.getD 2 0
    ip9 := vch.getD 3 0
    ip10 := vch.getD 4 0
    ip11 := vch.getD 5 0
    ip12 := vch.getD 6 0
    ip13 := vch.getD 7 0
    ip14 := vch.getD 8 0
    ip15 := vch.getD 9 0 }

/-- Source `CNetAddr::SetSpecial`: i2p names are resolved through the address book
and (if i2p and name lookup are enabled) the router, raw base64 destinations
are used directly, and `.onion` names are base32-decoded into a 10-byte
payload behind the OnionCat marker.  Mutation of `*this` is modelled by
returning the updated address on success. -/
def SetSpecial (env : NetEnv) (a : CNetAddr) (strName : Str) : Option CNetAddr :=
  if isStringI2pDestination strName then
    if isValidI2pB32 strName then
      if env.i2pEnabledFlag && env.fNameLookup then
        let addr :=
          if (env.addrbook strName).length = 0 then env.router strName
          else env.addrbook strName
        if isValidI2pAddress addr then some (setGarlic a addr) else none
      else none
    else some (setGarlic a strName)
  else if decide (6 < strName.length) &&
      decide (strName.drop (strName.length - 6) = (".onion").toList) then
    if (DecodeBase32 (strName.take (strName.length - 6))).length = 16 - 6 then
      some (setOnion a (DecodeBase32 (strName.take (strName.length - 6))))
    else none
  else none

/-- Decimal rendering of a byte (`strprintf("%u", ·)`). -/
def natDec (n : Nat) : Str := Nat.toDigits 10 n

/-- Hexadecimal rendering of a 16-bit group (`strprintf("%x", ·)`). -/
def natHex (n : Nat) : Str := Nat.toDigits 16 n

/-- Modelled from the spec: `B32AddressFromDestination` (i2p utility, not
under `src/`) renders a destination as its `.b32.i2p` short name; the hash
inside the external i2p library is out of scope, only the suffix shape is
specified. -/
def B32AddressFromDestination (d : List Nat) : Str :=
  EncodeBase32 d ++ ((".b32.i2p").toList)

/-- Source `CNetAddr::ToStringIP`: i2p addresses render as their b32 name, Tor
addresses as `base32(payload) + ".onion"`, and IP addresses numerically
(the `getnameinfo` call is an OS facility; it is modelled by the manual
numeric formatting fallback of the same function, which produces the same
text). -/
def CNetAddr.ToStringIP (a : CNetAddr) : Str :=
  if a.IsI2P then
    if a.IsNativeI2P then B32AddressFromDestination a.GetI2pDestination
    else ("???.b32.i2p").toList
  else if a.IsTor then
    EncodeBase32 [a.ip6, a.ip7, a.ip8, a.ip9, a.ip10, a.ip11, a.ip12, a.ip13,
      a.ip14, a.ip15] ++ ((".onion").toList)
  else if a.IsIPv4 then
    natDec (a.GetByte 3) ++ '.' :: natDec (a.GetByte 2) ++ '.' ::
      natDec (a.GetByte 1) ++ '.' :: natDec (a.GetByte 0)
  else
    natHex (a.GetByte 15 * 256 + a.GetByte 14) ++ ':' ::
    natHex (a.GetByte 13 * 256 + a.GetByte 12) ++ ':' ::
    natHex (a.GetByte 11 * 256 + a.GetByte 10) ++ ':' ::
    natHex (a.GetByte 9 * 256 + a.GetByte 8) ++ ':' ::
    natHex (a.GetByte 7 * 256 + a.GetByte 6) ++ ':' ::
    natHex (a.GetByte 5 * 256 + a.GetByte 4) ++ ':' ::
    natHex (a.GetByte 3 * 256 + a.GetByte 2) ++ ':' ::
    natHex (a.GetByte 1 * 256 + a.GetByte 0)

/-- Whitespace as skipped by `strtol` (C `isspace`). -/
def isSpaceChar (c : Char) : Bool :=
  c = ' ' || c = '\t' || c = '\n' || c = '\x0b' || c = '\x0c' || c = '\r'

/-- Value of a decimal digit string. -/
def decNatVal (l : Str) : Nat := l.foldl (fun acc c => acc * 10 + (c.toNat - 48)) 0

/-- The digit-string value read by `strtol(p, &endp, 10)`, together with the
caller's `endp && *endp == 0` check: `some v` exactly when the whole string
is consumed (optional leading whitespace, optional sign, then digits — or the
empty string, which strtol leaves at value 0 with `endp` on the
terminator).  `v` is the exact mathematical value, before the `long` clamp
and the `long`-to-`int` conversion below. -/
def strtolRaw (s : Str) : Option Int :=
  if s = [] then some 0
  else
    match s.dropWhile isSpaceChar with
    | '+' :: r =>
      if decide (r ≠ []) && r.all Char.isDigit then some (decNatVal r) else none
    | '-' :: r =>
      if decide (r ≠ []) && r.all Char.isDigit then some (-(decNatVal r : Int)) else none
    | t =>
      if decide (t ≠ []) && t.all Char.isDigit then some (decNatVal t) else none

/-- The `LONG_MAX` bound of the LP64 build (`long` is 64-bit). -/
def LONG_MAX : Int := 9223372036854775807

/-- The `LONG_MIN` bound of the LP64 build. -/
def LONG_MIN : Int := -9223372036854775808

/-- Overflow behaviour of `strtol`: a value outside the `long` range is
clamped to `LONG_MAX` / `LONG_MIN` (with `errno = ERANGE`, which the caller
never inspects). -/
def clampLong (v : Int) : Int :=
  if LONG_MAX < v then LONG_MAX
  else if v < LONG_MIN then LONG_MIN
  else v

/-- The `long`-to-`int` conversion in `int n = strtol(...)`: two's-complement
truncation to 32 bits (the behaviour of the gcc/clang LP64 builds this file
models). -/
def wrapToInt (v : Int) : Int :=
  if v % 4294967296 < 2147483648 then v % 4294967296
  else v % 4294967296 - 4294967296

/-- The full `int n = strtol(p, &endp, 10)` of `SplitHostPort` with the
`endp && *endp == 0` check: the parsed value clamped to the `long` range and
then truncated to `int`.  A token such as "4294967380" therefore yields
`n = 84`. -/
def strtolAll (s : Str) : Option Int :=
  (strtolRaw s).map (fun v => wrapToInt (clampLong v))

/-- Source `std::string::find_last_of(c)`: index of the last occurrence. -/
def findLastOf : Str → Char → Option Nat
  | [], _ => none
  | c :: rest, t =>
    match findLastOf rest t with
    | some i => some (i + 1)
    | none => if c = t then some 0 else none

/-- Stripping one pair of enclosing square brackets
(`in.substr(1, in.size()-2)` when the first and last characters are `[`
and `]`). -/
def stripBrackets (s : Str) : Str :=
  if decide (0 < s.length) && decide (s.getD 0 ' ' = '[') &&
      decide (s.getD (s.length - 1) ' ' = ']') then (s.drop 1).dropLast
  else s

/-- Source `SplitHostPort`: the trailing `:<digits>` is a port separator when the
last colon is at position 0, or the token before it is bracketed, or it is
the only colon; a fully-parsed token whose wrapped `int` value is
nonnegative strips the suffix and, if that value is in 1..65535, replaces
the default port.  `find_last_of(':', colon-1)` is modelled with the same
size_t wrap-around behaviour (searching up to index `(colon-1)+1-1`, which
for `colon = 0` still inspects index 0). -/
def SplitHostPort (inp : Str) (portIn : Int) : Int × Str :=
  match findLastOf inp ':' with
  | none => (portIn, stripBrackets inp)
  | some colon =>
    let fBracketed :=
      decide (inp.getD 0 ' ' = '[') && decide (inp.getD (colon - 1) ' ' = ']')
    let fMultiColon := (findLastOf (inp.take (colon - 1 + 1)) ':').isSome
    if decide (colon = 0) || fBracketed || !fMultiColon then
      match strtolAll (inp.drop (colon + 1)) with
      | some n =>
        if 0 ≤ n then
          ((if 0 < n ∧ n < 65536 then n else portIn), stripBrackets (inp.take colon))
        else (portIn, stripBrackets inp)
      | none => (portIn, stripBrackets inp)
    else (portIn, stripBrackets inp)

/-- One octet of a dotted quad: nonempty, all digits, value at most 255. -/
def parseOctet (p : Str) : Option Nat :=
  if decide (p ≠ []) && p.all Char.isDigit && decide (decNatVal p ≤ 255) then
    some (decNatVal p)
  else none

/-- Modelled from the spec: numeric dotted-quad parsing performed by the
platform `inet_pton(AF_INET, ...)` call of `LookupIntern` (§4.3: "parses
numeric IPv4/IPv6 literals directly"). -/
def parseIPv4 (s : Str) : Option (Nat × Nat × Nat × Nat) :=
  match s.splitOn '.' with
  | [p0, p1, p2, p3] =>
    match parseOctet p0, parseOctet p1, parseOctet p2, parseOctet p3 with
    | some b0, some b1, some b2, some b3 => some (b0, b1, b2, b3)
    | _, _, _, _ => none
  | _ => none

/-- Source `LookupIntern`: special-address parsing first (`SetSpecial`); an i2p
name that fails to resolve is a definitive failure; then numeric IPv4/IPv6
parsing; finally DNS resolution (the `getaddrinfo` family, an oracle in the
environment) truncated by `nMaxSolutions` and failing on an empty result.
The boolean result plus the `vIP` out-parameter is modelled by an
`Option`. -/
def LookupIntern (env : NetEnv) (pszName : Str) (nMaxSolutions : Nat)
    (fAllowLookup : Bool) : Option (List CNetAddr) :=
  match SetSpecial env zeroAddr pszName with
  | some a => some [a]
  | none =>
    if isStringI2pDestination pszName then none
    else
      match parseIPv4 pszName with
      | some (b0, b1, b2, b3) => some [fromIPv4 b0 b1 b2 b3]
      | none =>
        match env.inet6 pszName with
        | some bytes => some [fromIPv6 bytes]
        | none =>
          let results := env.dns fAllowLookup pszName
          let results := if nMaxSolutions = 0 then results
            else results.take nMaxSolutions
          if results.length = 0 then none else some results

/-- Source `LookupHost`: empty input fails; enclosing brackets are stripped; then
`LookupIntern`. -/
def LookupHost (env : NetEnv) (pszName : Str) (nMaxSolutions : Nat)
    (fAllowLookup : Bool) : Option (List CNetAddr) :=
  if pszName = [] then none
  else
    LookupIntern env
      (if decide (pszName.getD 0 ' ' = '[') &&
          decide (pszName.getD (pszName.length - 1) ' ' = ']') then
        (pszName.drop 1).dropLast
      else pszName)
      nMaxSolutions fAllowLookup

/-- Conversion of the `int` port to the `unsigned short` field of
`CService`. -/
def intToPort (n : Int) : Nat := (n % 65536).toNat

/-- Source `Lookup`: empty input fails; split host and port, resolve the host, and
pair every address with the port. -/
def Lookup (env : NetEnv) (pszName : Str) (portDefault : Int)
    (fAllowLookup : Bool) (nMaxSolutions : Nat) : Option (List CService) :=
  if pszName = [] then none
  else
    match LookupIntern env (SplitHostPort pszName portDefault).2 nMaxSolutions
        fAllowLookup with
    | none => none
    | some vIP =>
      some (vIP.map (fun ip =>
        CService.mk ip (intToPort (SplitHostPort pszName portDefault).1)))

/-- The constructor `CNetAddr(const std::string&, bool)`: resolve and take
the first answer, or stay zeroed. -/
def CNetAddrFromStr (env : NetEnv) (strIp : Str) (fAllowLookup : Bool) : CNetAddr :=
  match LookupHost env strIp 1 fAllowLookup with
  | some (v :: _) => v
  | _ => zeroAddr

/-- The constructor `CService(const char*, int, bool)`: look up and take the
first answer, or stay zeroed. -/
def CServiceFromStr (env : NetEnv) (pszIpPort : Str) (portDefault : Int)
    (fAllowLookup : Bool) : CService :=
  match Lookup env pszIpPort portDefault fAllowLookup 1 with
  | some (v :: _) => v
  | _ => CService.mk zeroAddr 0

/-- Outcome of the `Socks5` dialer: the boolean result, the `error(...)`
message on failure, whether `closesocket` ran, and the bytes written to the
socket. -/
structure Socks5Out where
  success : Bool
  errMsg : Option String
  socketClosed : Bool
  sent : List Nat
deriving DecidableEq

/-- The reply-code switch of `Socks5`: the eight mapped proxy errors, and
"unknown" for any other nonzero code. -/
def socks5ErrorText : Nat → String
  | 1 => "Proxy error: general failure"
  | 2 => "Proxy error: connection not allowed"
  | 3 => "Proxy error: network unreachable"
  | 4 => "Proxy error: host unreachable"
  | 5 => "Proxy error: connection refused"
  | 6 => "Proxy error: TTL expired"
  | 7 => "Proxy error: protocol error"
  | 8 => "Proxy error: address type not supported"
  | _ => "Proxy error: unknown"

/-- The no-auth greeting `05 01 00`. -/
def socks5Greeting : List Nat := [5, 1, 0]

/-- The CONNECT request: version, one method, reserved, domain-name address
type, length byte (`min(size, 255)`), hostname bytes, port big-endian. -/
def socks5Request (strDest : Str) (port : Nat) : List Nat :=
  [5, 1, 0, 3, min strDest.length 255] ++ strDest.map Char.toNat ++
    [port / 256 % 256, port % 256]

/-- Everything `Socks5` has written once the request is out. -/
def socks5Sent (strDest : Str) (port : Nat) : List Nat :=
  socks5Greeting ++ socks5Request strDest port

/-- Consuming the bound address (`n` bytes) and the final 2-byte bound port;
a short read fails and closes the socket. -/
def socks5Finish (strDest : Str) (port : Nat) (n : Nat) (rest : List Nat) : Socks5Out :=
  if (rest.take n).length ≠ n then
    ⟨false, some ("Error reading from proxy"), true, socks5Sent strDest port⟩
  else if ((rest.drop n).take 2).length ≠ 2 then
    ⟨false, some ("Error reading from proxy"), true, socks5Sent strDest port⟩
  else ⟨true, none, false, socks5Sent strDest port⟩

/-- The bound-address-type switch: 4 bytes for IPv4, 16 for IPv6, a
length-prefixed domain for type 3, and a malformed-reply failure
otherwise. -/
def socks5Tail (strDest : Str) (port : Nat) (atyp : Nat) (rest : List Nat) : Socks5Out :=
  match atyp with
  | 1 => socks5Finish strDest port 4 rest
  | 4 => socks5Finish strDest port 16 rest
  | 3 =>
    if (rest.take 1).length ≠ 1 then
      ⟨false, some ("Error reading from proxy"), true, socks5Sent strDest port⟩
    else socks5Finish strDest port (rest.getD 0 0) (rest.drop 1)
  | _ => ⟨false, some ("Error: malformed proxy response"), true, socks5Sent strDest port⟩

/-- The `Socks5` client handshake over an already-connected socket.  The
socket's incoming bytes are the `input` stream; `recv(h, buf, n)` takes the
next `n` bytes and a short stream is a short read.  Sends are modelled as
succeeding in full (a short send is an environmental failure outside the
reply-handling logic being specified). -/
def Socks5 (strDest : Str) (port : Nat) (input : List Nat) : Socks5Out :=
  if 255 < strDest.length then
    ⟨false, some ("Hostname too long"), true, []⟩
  else if (input.take 2).length ≠ 2 then
    ⟨false, some ("Error reading proxy response"), true, socks5Greeting⟩
  else if input.take 2 ≠ [5, 0] then
    ⟨false, some ("Proxy failed to initialize"), true, socks5Greeting⟩
  else if ((input.drop 2).take 4).length ≠ 4 then
    ⟨false, some ("Error reading proxy response"), true, socks5Sent strDest port⟩
  else if (input.drop 2).getD 0 0 ≠ 5 then
    ⟨false, some ("Proxy failed to accept request"), true, socks5Sent strDest port⟩
  else if (input.drop 2).getD 1 0 ≠ 0 then
    ⟨false, some (socks5ErrorText ((input.drop 2).getD 1 0)), true,
      socks5Sent strDest port⟩
  else if (input.drop 2).getD 2 0 ≠ 0 then
    ⟨false, some ("Error: malformed proxy response"), true, socks5Sent strDest port⟩
  else socks5Tail strDest port ((input.drop 2).getD 3 0) (input.drop 6)

/-- Source `HaveNameProxy`: the name-proxy slot holds a valid endpoint. -/
def HaveNameProxy (env : NetEnv) : Bool := env.nameProxy.toCNetAddr.IsValid

/-- Source `GetProxy`: the per-network proxy slot, when valid. -/
def GetProxy (env : NetEnv) (net : Network) : Option CService :=
  if (env.proxyInfo net).toCNetAddr.IsValid then some (env.proxyInfo net) else none

/-- Source `ConnectSocket`: native i2p destinations go through the external i2p
session (an oracle); otherwise connect directly when no proxy is configured
for the destination's network, or connect to the proxy and run the SOCKS5
handshake.  Socket identity is abstracted to the success boolean. -/
def ConnectSocket (env : NetEnv) (addrDest : CService) : Bool :=
  if addrDest.toCNetAddr.IsI2P then
    env.i2pConnectOk addrDest.toCNetAddr.GetI2pDestination
  else
    match GetProxy env addrDest.toCNetAddr.GetNetwork with
    | none => env.connectOk addrDest
    | some proxy =>
      env.connectOk proxy &&
        (Socks5 addrDest.toCNetAddr.ToStringIP addrDest.port env.proxyStream).success

/-- The locally-resolved candidate endpoint of `ConnectSocketByName`:
`CService(CNetAddr(strDest, fNameLookup && !HaveNameProxy()), port)`. -/
def resolveCandidate (env : NetEnv) (pszDest : Str) (portDefault : Int) : CService :=
  CService.mk
    (CNetAddrFromStr env (SplitHostPort pszDest portDefault).2
      (env.fNameLookup && !HaveNameProxy env))
    (intToPort (SplitHostPort pszDest portDefault).1)

/-- Source `ConnectSocketByName`: split host and port; if local resolution yields a
valid address, report it and connect to it; otherwise the out-parameter is
set to `CService("0.0.0.0:0")` and, when a name proxy is configured, the
dialer connects to the name proxy and runs SOCKS5 with the unresolved
hostname.  The result pairs the `addr` out-parameter with the success
boolean. -/
def ConnectSocketByName (env : NetEnv) (pszDest : Str) (portDefault : Int) :
    CService × Bool :=
  if (resolveCandidate env pszDest portDefault).toCNetAddr.IsValid then
    (resolveCandidate env pszDest portDefault,
     ConnectSocket env (resolveCandidate env pszDest portDefault))
  else if !HaveNameProxy env then
    (CServiceFromStr env (("0.0.0.0:0").toList) 0 false, false)
  else if !(env.connectOk env.nameProxy) then
    (CServiceFromStr env (("0.0.0.0:0").toList) 0 false, false)
  else
    (CServiceFromStr env (("0.0.0.0:0").toList) 0 false,
     (Socks5 (SplitHostPort pszDest portDefault).2
       (intToPort (SplitHostPort pszDest portDefault).1) env.proxyStream).success)

/-- Claim-side reading of `splitHostPort`'s port rule: the input contains
exactly one colon. -/
abbrev exactlyOneColon (inp : Str) : Prop := inp.count ':' = 1

/-- Claim-side reading of `splitHostPort`'s port rule: the token before the
last colon is bracketed (`in[0] = '['` and the character just before the
colon is `]`). -/
def lastColonBracketed (inp : Str) : Bool :=
  match findLastOf inp ':' with
  | some colon =>
    decide (inp.getD 0 ' ' = '[') && decide (inp.getD (colon - 1) ' ' = ']')
  | none => false

/-- The extended-family combinations the spec's reachability sentence
enumerates: a same-family pair, or an unknown/unroutable partner (the
fallback-preference case). -/
abbrev c3Enumerated (ourNet theirNet : ExtNetwork) : Prop :=
  ourNet = theirNet ∨ theirNet = .UNKNOWN ∨ theirNet = .UNROUTABLE

/-- The score the code actually assigns on the non-enumerated combinations
(the amended form of claim C3): an I2P partner is unreachable from any
other family; IPv4 self is still advertised to IPv6/Tor/Teredo partners;
Teredo self to an IPv6 partner scores Teredo; IPv6 self to a Teredo partner
scores weak IPv6; everything else is Default. -/
def c3AmendedScore (ourNet theirNet : ExtNetwork) : Reachability :=
  match theirNet with
  | .NATIVE_I2P => .REACH_UNREACHABLE
  | .IPV6 =>
    match ourNet with
    | .TEREDO => .REACH_TEREDO
    | .IPV4 => .REACH_IPV4
    | _ => .REACH_DEFAULT
  | .TOR =>
    match ourNet with
    | .IPV4 => .REACH_IPV4
    | _ => .REACH_DEFAULT
  | .TEREDO =>
    match ourNet with
    | .IPV6 => .REACH_IPV6_WEAK
    | .IPV4 => .REACH_IPV4
    | _ => .REACH_DEFAULT
  | _ => .REACH_DEFAULT

/-- Sharing a /32 prefix: the first four bytes of the slot agree. -/
abbrev sameFirst32 (a b : CNetAddr) : Prop :=
  a.ip0 = b.ip0 ∧ a.ip1 = b.ip1 ∧ a.ip2 = b.ip2 ∧ a.ip3 = b.ip3

/-- The six marker bytes at the front of the slot. -/
def ipMarker6 (a : CNetAddr) : List Nat :=
  [a.ip0, a.ip1, a.ip2, a.ip3, a.ip4, a.ip5]

/-- The ten payload bytes behind a 6-byte marker. -/
def ipPayload10 (a : CNetAddr) : List Nat :=
  [a.ip6, a.ip7, a.ip8, a.ip9, a.ip10, a.ip11, a.ip12, a.ip13, a.ip14, a.ip15]

/-- A concrete environment for witnesses: empty address book and router,
i2p and name lookup enabled, no numeric-IPv6 or DNS answers, no proxies. -/
def defaultNetEnv : NetEnv :=
  ⟨fun _ => [], fun _ => [], true, true, fun _ => none, fun _ _ => [],
   CService.mk zeroAddr 0, fun _ => CService.mk zeroAddr 0, fun _ => true,
   fun _ => true, []⟩

/-- The environment of the C10 witness: a name proxy is configured, the
direct connect to it succeeds, and the proxy's SOCKS5 reply stream accepts
the request (reply code 0, IPv4 bound address). -/
def c10WitnessEnv : NetEnv :=
  { defaultNetEnv with
    nameProxy := CService.mk (fromIPv4 127 0 0 1) 9050
    proxyStream := [5, 0, 5, 0, 0, 1, 9, 9, 9, 9, 8, 8] }

/-- The zero endpoint `CService("0.0.0.0:0")`: IPv4-mapped 0.0.0.0, port 0. -/
def zeroEndpoint : CService := CService.mk (fromIPv4 0 0 0 0) 0

/-- Concrete routable IPv4 self for the C3 counterexample. -/
def c3CexSelf : CNetAddr := fromIPv4 8 8 8 8

/-- Concrete Tor partner for the C3 counterexample. -/
def c3CexPartner : CNetAddr := setOnion zeroAddr [1, 2, 3, 4, 5, 6, 7, 8, 9, 10]

/-- Concrete unroutable (RFC4193) IPv6 address for the C7 counterexample. -/
def c7CexA : CNetAddr := fromIPv6 [0xFC, 0, 0, 0, 0, 0, 0, 0, 0, 0, 0, 0, 0, 0, 0, 0]

/-- A second RFC4193 address differing from `c7CexA` inside the first 32
bits. -/
def c7CexB : CNetAddr := fromIPv6 [0xFC, 0, 0, 1, 0, 0, 0, 0, 0, 0, 0, 0, 0, 0, 0, 0]

theorem getByte0 (a : CNetAddr) : a.GetByte 0 = a.ip15 := rfl

theorem getByte1 (a : CNetAddr) : a.GetByte 1 = a.ip14 := rfl

theorem getByte2 (a : CNetAddr) : a.GetByte 2 = a.ip13 := rfl

theorem getByte3 (a : CNetAddr) : a.GetByte 3 = a.ip12 := rfl

theorem getByte12 (a : CNetAddr) : a.GetByte 12 = a.ip3 := rfl

theorem getByte13 (a : CNetAddr) : a.GetByte 13 = a.ip2 := rfl

theorem getByte14 (a : CNetAddr) : a.GetByte 14 = a.ip1 := rfl

theorem getByte15 (a : CNetAddr) : a.GetByte 15 = a.ip0 := rfl

/-- C1: for every SOCKS5 reply stream whose version byte is 5 and whose
reply-code byte is nonzero, the dialer fails, the error is the mapped text
(`socks5ErrorText`: the eight specific messages for 1..8 and "unknown"
otherwise), and the socket is closed. -/
theorem socks5_nonzero_reply_fails (strDest : Str) (port : Nat) (code b3 b4 : Nat)
    (rest : List Nat) (hdest : strDest.length ≤ 255) (hcode : code ≠ 0) :
    (Socks5 strDest port ([5, 0, 5, code, b3, b4] ++ rest)).success = false ∧
    (Socks5 strDest port ([5, 0, 5, code, b3, b4] ++ rest)).errMsg =
      some (socks5ErrorText code) ∧
    (Socks5 strDest port ([5, 0, 5, code, b3, b4] ++ rest)).socketClosed = true := by
  have h1 : ¬(255 < strDest.length) := by omega
  simp [Socks5, h1, hcode]

/-- C1 witness: the spec's example reply `05 04 00 01` reports
"host unreachable" and leaves the socket closed. -/
theorem socks5_nonzero_reply_fails_witness :
    ("x").toList.length ≤ 255 ∧ (4 : Nat) ≠ 0 ∧
    (Socks5 (("x").toList) 80 ([5, 0, 5, 4, 0, 1] ++ [])).errMsg =
      some ("Proxy error: host unreachable") ∧
    (Socks5 (("x").toList) 80 ([5, 0, 5, 4, 0, 1] ++ [])).socketClosed = true :=
  ⟨by decide, by decide,
   (socks5_nonzero_reply_fails (("x").toList) 80 4 0 1 [] (by decide) (by decide)).2.1,
   (socks5_nonzero_reply_fails (("x").toList) 80 4 0 1 [] (by decide) (by decide)).2.2⟩

/-- C8: a destination hostname longer than 255 bytes makes the dialer fail
with the socket closed and no bytes ever sent. -/
theorem socks5_long_hostname_rejected (strDest : Str) (port : Nat)
    (input : List Nat) (h : 255 < strDest.length) :
    (Socks5 strDest port input).success = false ∧
    (Socks5 strDest port input).socketClosed = true ∧
    (Socks5 strDest port input).sent = [] := by
  simp [Socks5, h]

set_option maxRecDepth 4000 in
/-- C8 witness: a 256-byte hostname is rejected before any bytes are sent. -/
theorem socks5_long_hostname_rejected_witness :
    255 < (List.replicate 256 'a').length ∧
    (Socks5 (List.replicate 256 'a') 80 []).success = false ∧
    (Socks5 (List.replicate 256 'a') 80 []).sent = [] :=
  ⟨by decide,
   (socks5_long_hostname_rejected (List.replicate 256 'a') 80 [] (by decide)).1,
   (socks5_long_hostname_rejected (List.replicate 256 'a') 80 [] (by decide)).2.2⟩

/-- C2 counterexample: the address parsed from "192.168.1.5" is IPv4 and
RFC1918, but `IsRoutable` returns true (the RFC1918 exclusion is commented
out in the shipped code), so the claimed conjunction with `IsRoutable =
false` is false. -/
theorem rfc1918_routable_counterexample :
    ¬((CNetAddrFromStr defaultNetEnv (("192.168.1.5").toList) false).IsIPv4 = true ∧
      (CNetAddrFromStr defaultNetEnv (("192.168.1.5").toList) false).IsRFC1918 = true ∧
      (CNetAddrFromStr defaultNetEnv (("192.168.1.5").toList) false).IsRoutable = false) := by
  decide

/-- C2 (amended): the address parsed from "192.168.1.5" is IPv4, its
RFC1918 predicate is true, and `IsRoutable` is true. -/
theorem rfc1918_parse_classification :
    (CNetAddrFromStr defaultNetEnv (("192.168.1.5").toList) false).IsIPv4 = true ∧
    (CNetAddrFromStr defaultNetEnv (("192.168.1.5").toList) false).IsRFC1918 = true ∧
    (CNetAddrFromStr defaultNetEnv (("192.168.1.5").toList) false).IsRoutable = true := by
  decide

/-- C9: host lookup returns no result (a failure value) on the empty string,
and an input that is syntactically an i2p overlay address whose resolution
fails (for any environment, hence for any DNS oracle) is a definitive
`LookupIntern` failure — numeric parsing and DNS are never consulted. -/
theorem lookup_no_result :
    (∀ (env : NetEnv) (nMax : Nat) (fAllow : Bool),
      LookupHost env [] nMax fAllow = none) ∧
    (∀ (env : NetEnv) (name : Str) (nMax : Nat) (fAllow : Bool),
      isStringI2pDestination name = true → SetSpecial env zeroAddr name = none →
      LookupIntern env name nMax fAllow = none) := by
  constructor
  · intro env nMax fAllow
    rfl
  · intro env name nMax fAllow hi2p hset
    simp [LookupIntern, hset, hi2p]

/-- C9 witness: an unresolvable `.b32.i2p` name fails definitively in the
default environment. -/
theorem lookup_no_result_witness :
    isStringI2pDestination (("abc.b32.i2p").toList) = true ∧
    SetSpecial defaultNetEnv zeroAddr (("abc.b32.i2p").toList) = none ∧
    LookupIntern defaultNetEnv (("abc.b32.i2p").toList) 1 true = none :=
  ⟨by decide, by decide,
   lookup_no_result.2 defaultNetEnv (("abc.b32.i2p").toList) 1 true (by decide) (by decide)⟩

theorem zeroStringParse (env : NetEnv) :
    CServiceFromStr env (("0.0.0.0:0").toList) 0 false = zeroEndpoint := rfl

/-- C10: when local resolution of the host string does not produce a valid
address, the `addr` out-parameter of `ConnectSocketByName` is the zero
endpoint (`0.0.0.0:0`), in every subsequent branch — including a successful
name-proxy SOCKS5 connection. -/
theorem connectByName_unresolved_zero_endpoint (env : NetEnv) (pszDest : Str)
    (portDefault : Int)
    (h : (resolveCandidate env pszDest portDefault).toCNetAddr.IsValid = false) :
    (ConnectSocketByName env pszDest portDefault).1 = zeroEndpoint := by
  unfold ConnectSocketByName
  rw [h]
  simp [zeroStringParse]
  split
  · rfl
  · split
    · rfl
    · rfl

/-- C10 witness: with an unresolvable host and a working name proxy, the
connection succeeds but the caller still receives the zero endpoint. -/
theorem connectByName_unresolved_zero_endpoint_witness :
    (resolveCandidate c10WitnessEnv (("nosuchhost.test").toList) 80).toCNetAddr.IsValid
      = false ∧
    (ConnectSocketByName c10WitnessEnv (("nosuchhost.test").toList) 80).1 =
      zeroEndpoint ∧
    (ConnectSocketByName c10WitnessEnv (("nosuchhost.test").toList) 80).2 = true :=
  ⟨by decide,
   connectByName_unresolved_zero_endpoint c10WitnessEnv (("nosuchhost.test").toList) 80
     (by decide),
   by decide⟩

theorem ipv4_not_rfc4380 {a : CNetAddr} (h : a.IsIPv4 = true) :
    a.IsRFC4380 = false := by
  simp [CNetAddr.IsIPv4] at h
  simp [CNetAddr.IsRFC4380, getByte15, getByte14, getByte13, getByte12]
  omega

theorem getNetwork_ipv4_iff {a : CNetAddr} :
    a.GetNetwork = Network.IPV4 ↔ (a.IsRoutable = true ∧ a.IsIPv4 = true) := by
  unfold CNetAddr.GetNetwork
  cases hr : a.IsRoutable with
  | false => simp
  | true =>
    cases h4 : a.IsIPv4 with
    | true => simp
    | false =>
      cases ht : a.IsTor with
      | true => simp
      | false =>
        cases hi : a.IsI2P with
        | true => simp
        | false => simp

theorem tor_not_ipv4 {a : CNetAddr} (h : a.IsTor = true) : a.IsIPv4 = false := by
  simp [CNetAddr.IsTor] at h
  simp [CNetAddr.IsIPv4]
  omega

theorem tor_not_rfc4380 {a : CNetAddr} (h : a.IsTor = true) : a.IsRFC4380 = false := by
  simp [CNetAddr.IsTor] at h
  simp [CNetAddr.IsRFC4380, getByte15, getByte14, getByte13, getByte12]
  omega

theorem tor_routable {a : CNetAddr} (h : a.IsTor = true) : a.IsRoutable = true := by
  have h6 := h
  simp [CNetAddr.IsTor] at h6
  obtain ⟨h0, h1, h2, h3, h4, h5⟩ := h6
  simp [CNetAddr.IsRoutable, CNetAddr.IsValid, CNetAddr.IsI2P, CNetAddr.IsIPv4,
    CNetAddr.IsRFC3849, CNetAddr.IsRFC3927, CNetAddr.IsRFC4862, CNetAddr.IsRFC4843,
    CNetAddr.IsLocal, CNetAddr.GetByte, ipIndex, h, h0, h1, h2, h3, h4, h5]

theorem tor_network {a : CNetAddr} (h : a.IsTor = true) : a.GetNetwork = Network.TOR := by
  simp [CNetAddr.GetNetwork, tor_routable h, tor_not_ipv4 h, h]

theorem ipv4_ext {a : CNetAddr} (hr : a.IsRoutable = true) (h4 : a.IsIPv4 = true) :
    GetExtNetwork (some a) = ExtNetwork.IPV4 := by
  have hn : a.GetNetwork = Network.IPV4 := getNetwork_ipv4_iff.mpr ⟨hr, h4⟩
  simp [GetExtNetwork, ipv4_not_rfc4380 h4, hn, Network.toExt]

theorem tor_ext {a : CNetAddr} (h : a.IsTor = true) :
    GetExtNetwork (some a) = ExtNetwork.TOR := by
  simp [GetExtNetwork, tor_not_rfc4380 h, tor_network h, Network.toExt]

/-- C6: an IPv4 partner with an IPv4 self always scores `REACH_IPV4`; a Tor
partner with a Tor self scores `REACH_PRIVATE`; an unroutable self scores
`REACH_UNREACHABLE` against every partner. -/
theorem reachability_family_cases (self partner : CNetAddr) :
    (self.IsRoutable = true → self.GetNetwork = Network.IPV4 →
      partner.GetNetwork = Network.IPV4 →
      GetReachabilityFrom self (some partner) = Reachability.REACH_IPV4) ∧
    (self.IsRoutable = true → self.IsTor = true → partner.IsTor = true →
      GetReachabilityFrom self (some partner) = Reachability.REACH_PRIVATE) ∧
    (self.IsRoutable = false → ∀ p : Option CNetAddr,
      GetReachabilityFrom self p = Reachability.REACH_UNREACHABLE) := by
  refine ⟨?_, ?_, ?_⟩
  · intro hr hs hp
    have hs4 : self.IsIPv4 = true := (getNetwork_ipv4_iff.mp hs).2
    have hpr : partner.IsRoutable = true := (getNetwork_ipv4_iff.mp hp).1
    have hp4 : partner.IsIPv4 = true := (getNetwork_ipv4_iff.mp hp).2
    simp [GetReachabilityFrom, hr, ipv4_ext hr hs4, ipv4_ext hpr hp4, reachSwitch]
  · intro hr hs hp
    simp [GetReachabilityFrom, hr, tor_ext hs, tor_ext hp, reachSwitch]
  · intro hr p
    simp [GetReachabilityFrom, hr]

/-- C6 witness: 8.8.8.8 against 1.2.3.4 scores IPv4; two onion addresses
score Private; the unspecified address is unreachable from anyone. -/
theorem reachability_family_cases_witness :
    (fromIPv4 8 8 8 8).IsRoutable = true ∧
    GetReachabilityFrom (fromIPv4 8 8 8 8) (some (fromIPv4 1 2 3 4)) =
      Reachability.REACH_IPV4 ∧
    GetReachabilityFrom c3CexPartner (some c3CexPartner) =
      Reachability.REACH_PRIVATE ∧
    GetReachabilityFrom zeroAddr (some (fromIPv4 8 8 8 8)) =
      Reachability.REACH_UNREACHABLE :=
  ⟨by decide,
   (reachability_family_cases (fromIPv4 8 8 8 8) (fromIPv4 1 2 3 4)).1 (by decide)
     (by decide) (by decide),
   (reachability_family_cases c3CexPartner c3CexPartner).2.1 (by decide) (by decide)
     (by decide),
   (reachability_family_cases zeroAddr (fromIPv4 8 8 8 8)).2.2 (by decide)
     (some (fromIPv4 8 8 8 8))⟩

/-- C3 counterexample: a routable IPv4 self with a Tor partner is not one of
the enumerated same-family / unknown-partner combinations, yet the code
scores `REACH_IPV4`, not `REACH_DEFAULT`. -/
theorem reachability_default_counterexample :
    c3CexSelf.IsRoutable = true ∧
    ¬ c3Enumerated (GetExtNetwork (some c3CexSelf)) (GetExtNetwork (some c3CexPartner)) ∧
    GetReachabilityFrom c3CexSelf (some c3CexPartner) ≠ Reachability.REACH_DEFAULT := by
  decide

/-- C3 (amended): for a routable self, every combination outside the
enumerated same-family / unknown-partner cases scores exactly
`c3AmendedScore`: Default, except that an IPv4 self still scores IPv4
against IPv6, Tor and Teredo partners, a Teredo self scores Teredo against
an IPv6 partner, an IPv6 self scores weak IPv6 against a Teredo partner, and
an I2P partner is Unreachable from every non-I2P self. -/
theorem reachability_default_amended (self : CNetAddr) (partner : Option CNetAddr)
    (hr : self.IsRoutable = true)
    (hne : ¬ c3Enumerated (GetExtNetwork (some self)) (GetExtNetwork partner)) :
    GetReachabilityFrom self partner =
      c3AmendedScore (GetExtNetwork (some self)) (GetExtNetwork partner) := by
  unfold GetReachabilityFrom
  rw [hr]
  revert hne
  generalize GetExtNetwork (some self) = ourNet
  generalize GetExtNetwork partner = theirNet
  intro hne
  cases ourNet <;> cases theirNet <;>
    simp_all [reachSwitch, c3AmendedScore, c3Enumerated]

/-- C3 amended witness: the counterexample pair scores the amended value
(IPv4). -/
theorem reachability_default_amended_witness :
    c3CexSelf.IsRoutable = true ∧
    ¬ c3Enumerated (GetExtNetwork (some c3CexSelf)) (GetExtNetwork (some c3CexPartner)) ∧
    GetReachabilityFrom c3CexSelf (some c3CexPartner) =
      c3AmendedScore (GetExtNetwork (some c3CexSelf)) (GetExtNetwork (some c3CexPartner)) :=
  ⟨by decide, by decide,
   reachability_default_amended c3CexSelf (some c3CexPartner) (by decide) (by decide)⟩

theorem isRoutable_parts {a : CNetAddr} (hr : a.IsRoutable = true) :
    a.IsLocal = false := by
  simp [CNetAddr.IsRoutable] at hr
  exact hr.2.2

theorem getGroup_generic_ipv6 {a : CNetAddr} (hr : a.IsRoutable = true)
    (h6 : a.IsIPv6 = true) (h45 : a.IsRFC6145 = false) (h52 : a.IsRFC6052 = false)
    (h64 : a.IsRFC3964 = false) (h80 : a.IsRFC4380 = false)
    (hhe : isHeNet a = false) :
    a.GetGroup = [2, a.ip0, a.ip1, a.ip2, a.ip3] := by
  have h6' := h6
  simp [CNetAddr.IsIPv6] at h6'
  obtain ⟨⟨h4, hTor⟩, hI2P⟩ := h6'
  simp [CNetAddr.GetGroup, hI2P, hr, h4, hTor, h45, h52, h64, h80, hhe,
    isRoutable_parts hr, groupPieces, groupTailGo, getByte15, getByte14,
    getByte13, getByte12, Network.toByte]

/-- C7 counterexample: two unroutable (RFC4193) IPv6 addresses that differ
inside the first 32 bits share the single-byte unroutable group key, so
"differs once the prefix differs" fails on the code. -/
theorem groupKey_slash32_counterexample :
    c7CexA.IsIPv6 = true ∧ c7CexB.IsIPv6 = true ∧ ¬ sameFirst32 c7CexA c7CexB ∧
    c7CexA.GetGroup = c7CexB.GetGroup := by
  decide

/-- C7 (amended): for routable IPv6 addresses outside every special group
(not IPv4-mapped/SIIT/NAT64-translated, not 6to4, not Teredo, not in the
he.net /36 block), the group key is the class byte plus the first four
address bytes, so two such addresses have equal group keys exactly when they
share their /32 prefix. -/
theorem groupKey_slash32_amended (a b : CNetAddr)
    (har : a.IsRoutable = true) (ha6 : a.IsIPv6 = true)
    (ha45 : a.IsRFC6145 = false) (ha52 : a.IsRFC6052 = false)
    (ha64 : a.IsRFC3964 = false) (ha80 : a.IsRFC4380 = false)
    (hahe : isHeNet a = false)
    (hbr : b.IsRoutable = true) (hb6 : b.IsIPv6 = true)
    (hb45 : b.IsRFC6145 = false) (hb52 : b.IsRFC6052 = false)
    (hb64 : b.IsRFC3964 = false) (hb80 : b.IsRFC4380 = false)
    (hbhe : isHeNet b = false) :
    a.GetGroup = b.GetGroup ↔ sameFirst32 a b := by
  rw [getGroup_generic_ipv6 har ha6 ha45 ha52 ha64 ha80 hahe,
    getGroup_generic_ipv6 hbr hb6 hb45 hb52 hb64 hb80 hbhe]
  simp [sameFirst32]

/-- C7 amended witness: two 2a02:1234:: addresses sharing the /32 prefix
have equal group keys. -/
theorem groupKey_slash32_amended_witness :
    (fromIPv6 [0x2a, 2, 0x12, 0x34, 0, 0, 0, 0, 0, 0, 0, 0, 0, 0, 0, 1]).IsRoutable
      = true ∧
    ((fromIPv6 [0x2a, 2, 0x12, 0x34, 0, 0, 0, 0, 0, 0, 0, 0, 0, 0, 0, 1]).GetGroup =
        (fromIPv6 [0x2a, 2, 0x12, 0x34, 0, 0, 0, 0, 0, 0, 0, 0, 0, 0, 0, 2]).GetGroup ↔
      sameFirst32 (fromIPv6 [0x2a, 2, 0x12, 0x34, 0, 0, 0, 0, 0, 0, 0, 0, 0, 0, 0, 1])
        (fromIPv6 [0x2a, 2, 0x12, 0x34, 0, 0, 0, 0, 0, 0, 0, 0, 0, 0, 0, 2])) :=
  ⟨by decide,
   groupKey_slash32_amended _ _ (by decide) (by decide) (by decide) (by decide)
     (by decide) (by decide) (by decide) (by decide) (by decide) (by decide)
     (by decide) (by decide) (by decide) (by decide)⟩

theorem findLastOf_none {l : Str} {t : Char} (h : findLastOf l t = none) : t ∉ l := by
  induction l with
  | nil => simp
  | cons c rest ih =>
    cases hf : findLastOf rest t with
    | some j => simp [findLastOf, hf] at h
    | none =>
      simp only [findLastOf, hf] at h
      split at h
      · simp at h
      · rename_i hc
        simp only [List.mem_cons, not_or]
        exact ⟨fun hh => hc hh.symm, ih hf⟩

theorem findLastOf_split {l : Str} {t : Char} {i : Nat}
    (h : findLastOf l t = some i) :
    ∃ pre post, l = pre ++ t :: post ∧ pre.length = i ∧ t ∉ post := by
  induction l generalizing i with
  | nil => simp [findLastOf] at h
  | cons c rest ih =>
    cases hf : findLastOf rest t with
    | some j =>
      simp only [findLastOf, hf, Option.some.injEq] at h
      obtain ⟨pre, post, hl, hlen, hnot⟩ := ih hf
      refine ⟨c :: pre, post, by simp [hl], ?_, hnot⟩
      simp [hlen, ← h]
    | none =>
      simp only [findLastOf, hf] at h
      split at h
      · rename_i hc
        simp only [Option.some.injEq] at h
        subst hc
        exact ⟨[], rest, rfl, h, findLastOf_none hf⟩
      · simp at h

theorem count_eq_one_of_split {pre post : Str} {t : Char}
    (h1 : t ∉ pre) (h2 : t ∉ post) : (pre ++ t :: post).count t = 1 := by
  simp [List.count_append, List.count_cons, List.count_eq_zero.mpr h1,
    List.count_eq_zero.mpr h2]

theorem all_digits_getLast {r : Str} (hne : r ≠ [])
    (hall : r.all Char.isDigit = true) :
    ∃ d, r.getLast? = some d ∧ d.isDigit = true := by
  obtain ⟨d, hd⟩ := Option.isSome_iff_exists.mp (List.getLast?_isSome.mpr hne)
  refine ⟨d, hd, ?_⟩
  exact (List.all_eq_true.mp hall) d (List.mem_of_mem_getLast? hd)

theorem strtolRaw_last_digit {s : Str} {n : Int} (h : strtolRaw s = some n) :
    s = [] ∨ ∃ d, s.getLast? = some d ∧ d.isDigit = true := by
  by_cases hs : s = []
  · exact Or.inl hs
  right
  unfold strtolRaw at h
  rw [if_neg hs] at h
  have hsuf : s.dropWhile isSpaceChar <:+ s := List.dropWhile_suffix _
  obtain ⟨head, hhead⟩ := hsuf
  split at h
  · -- '+' :: r
    rename_i r heq
    split at h
    · rename_i hcond
      simp only [Bool.and_eq_true, decide_eq_true_eq] at hcond
      obtain ⟨d, hd, hdig⟩ := all_digits_getLast hcond.1 hcond.2
      refine ⟨d, ?_, hdig⟩
      rw [← hhead, heq, List.getLast?_append_of_ne_nil _ (by simp),
        List.getLast?_cons, hd]
      rfl
    · simp at h
  · -- '-' :: r
    rename_i r heq
    split at h
    · rename_i hcond
      simp only [Bool.and_eq_true, decide_eq_true_eq] at hcond
      obtain ⟨d, hd, hdig⟩ := all_digits_getLast hcond.1 hcond.2
      refine ⟨d, ?_, hdig⟩
      rw [← hhead, heq, List.getLast?_append_of_ne_nil _ (by simp),
        List.getLast?_cons, hd]
      rfl
    · simp at h
  · -- catch-all t
    rename_i t1 hne1 hne2
    split at h
    · rename_i hcond
      simp only [Bool.and_eq_true, decide_eq_true_eq] at hcond
      obtain ⟨d, hd, hdig⟩ := all_digits_getLast hcond.1 hcond.2
      refine ⟨d, ?_, hdig⟩
      rw [← hhead, List.getLast?_append_of_ne_nil _ hcond.1, hd]
    · simp at h

theorem getD_last_concat (l : List Char) (c d : Char) :
    (l ++ [c]).getD l.length d = c := by
  rw [List.getD_eq_getElem?_getD, List.getElem?_append_right (le_refl _)]
  simp

theorem splitHostPort_port_cases (inp : Str) (p : Int) :
    (SplitHostPort inp p).1 = p ∨
    ((1 ≤ (SplitHostPort inp p).1 ∧ (SplitHostPort inp p).1 ≤ 65535) ∧
      (exactlyOneColon inp ∨ lastColonBracketed inp = true)) := by
  unfold SplitHostPort
  cases hcol : findLastOf inp ':' with
  | none => left; rfl
  | some colon =>
    dsimp only
    split
    · rename_i hguard
      split
      · rename_i n hstr
        by_cases hn : (0 : Int) ≤ n
        · rw [if_pos hn]
          by_cases hrange : 0 < n ∧ n < 65536
          · rw [if_pos hrange]
            dsimp only
            right
            refine ⟨⟨by omega, by omega⟩, ?_⟩
            rw [Bool.or_eq_true, Bool.or_eq_true] at hguard
            obtain ⟨pre, post, hl, hlen, hnot⟩ := findLastOf_split hcol
            rcases hguard with (h0 | hb) | hm
            · -- colon = 0: the only colon is the first character
              left
              have hc0 : colon = 0 := by simpa using h0
              have hpre : pre = [] := List.length_eq_zero.mp (by omega)
              subst hpre
              rw [hl]
              exact count_eq_one_of_split (by simp) hnot
            · -- bracketed
              right
              simp only [Bool.and_eq_true, decide_eq_true_eq] at hb
              simp only [lastColonBracketed, hcol, Bool.and_eq_true,
                decide_eq_true_eq]
              exact hb
            · -- no second colon before the last one
              rw [Bool.not_eq_true'] at hm
              have hmn : findLastOf (inp.take (colon - 1 + 1)) ':' = none := by
                cases hfm : findLastOf (inp.take (colon - 1 + 1)) ':' with
                | none => rfl
                | some j => rw [hfm] at hm; simp at hm
              by_cases hc0 : colon = 0
              · left
                have hpre : pre = [] := List.length_eq_zero.mp (by omega)
                subst hpre
                rw [hl]
                exact count_eq_one_of_split (by simp) hnot
              · left
                have hm' : (':' : Char) ∉ inp.take (colon - 1 + 1) :=
                  findLastOf_none hmn
                have hco : colon - 1 + 1 = colon := by omega
                rw [hco] at hm'
                have htake : inp.take colon = pre := by
                  rw [hl, ← hlen, List.take_left]
                rw [htake] at hm'
                rw [hl]
                exact count_eq_one_of_split hm' hnot
          · rw [if_neg hrange]; left; rfl
        · rw [if_neg hn]; left; rfl
      · left; rfl
    · left; rfl

theorem splitHostPort_bracketed (mid : Str) (p : Int) :
    SplitHostPort ('[' :: mid ++ [']']) p = (p, mid) := by
  have hstrip : stripBrackets ('[' :: mid ++ [']']) = mid := by
    unfold stripBrackets
    have hcond : (decide (0 < ('[' :: mid ++ [']']).length) &&
        decide (('[' :: mid ++ [']']).getD 0 ' ' = '[') &&
        decide (('[' :: mid ++ [']']).getD (('[' :: mid ++ [']']).length - 1) ' ' = ']'))
        = true := by
      simp only [Bool.and_eq_true, decide_eq_true_eq]
      refine ⟨⟨by simp, rfl⟩, ?_⟩
      have hsh : ('[' :: mid ++ [']'] : Str) = ('[' :: mid) ++ [']'] := rfl
      have hlen : ('[' :: mid ++ [']'] : Str).length - 1 = ('[' :: mid).length := by
        simp
      rw [hsh, hlen, getD_last_concat]
    rw [if_pos hcond]
    simp [List.dropLast_concat]
  have hlastinp : ('[' :: mid ++ [']'] : Str).getLast? = some ']' := by
    rw [show ('[' :: mid ++ [']'] : Str) = ('[' :: mid) ++ [']'] from rfl,
      List.getLast?_append_of_ne_nil _ (by simp)]
    rfl
  unfold SplitHostPort
  cases hcol : findLastOf ('[' :: mid ++ [']']) ':' with
  | none => rw [hstrip]
  | some colon =>
    dsimp only
    obtain ⟨pre, post, hl, hlen, hnot⟩ := findLastOf_split hcol
    have hdropPost : ('[' :: mid ++ [']']).drop (colon + 1) = post := by
      rw [hl, ← hlen, ← List.drop_drop, List.drop_left]
      simp
    have hpost_ne : post ≠ [] := by
      intro hp
      subst hp
      rw [hl, List.getLast?_append_of_ne_nil _ (by simp)] at hlastinp
      simp at hlastinp
    have hlastpost : post.getLast? = some ']' := by
      rw [hl, List.getLast?_append_of_ne_nil _ (by simp), List.getLast?_cons]
        at hlastinp
      cases hpl : post.getLast? with
      | none => exact absurd (List.getLast?_eq_none_iff.mp hpl) hpost_ne
      | some x =>
        rw [hpl] at hlastinp
        simp only [Option.getD_some, Option.some.injEq] at hlastinp
        rw [hlastinp]
    have hstrRaw : strtolRaw (('[' :: mid ++ [']']).drop (colon + 1)) = none := by
      cases hs : strtolRaw (('[' :: mid ++ [']']).drop (colon + 1)) with
      | none => rfl
      | some n =>
        rcases strtolRaw_last_digit hs with hnil | ⟨d, hd, hdig⟩
        · rw [hdropPost] at hnil
          exact absurd hnil hpost_ne
        · rw [hdropPost, hlastpost] at hd
          simp only [Option.some.injEq] at hd
          rw [← hd] at hdig
          simp at hdig
    have hstr : strtolAll (('[' :: mid ++ [']']).drop (colon + 1)) = none := by
      unfold strtolAll
      rw [hstrRaw]
      rfl
    split
    · rw [hstr, hstrip]
    · rw [hstrip]

/-- C4 counterexample: the port token 4294967380 of
"example.com:4294967380" is numerically far outside 1..65535, yet
SplitHostPort sets the port to 84 rather than leaving the default 0
unchanged: the source stores the strtol result in an `int`, and on the
shipped LP64 build 4294967380 wraps to 84, which passes the range check.
So the claim's clause that a present but out-of-range port leaves the
caller's default unchanged is false on the program. -/
theorem splitHostPort_out_of_range_counterexample :
    decNatVal (("4294967380").toList) = 4294967380 ∧
    ¬ ((4294967380 : Int) ≤ 65535) ∧
    SplitHostPort (("example.com:4294967380").toList) 0 =
      (84, ("example.com").toList) ∧
    (84 : Int) ≠ 0 := by
  decide

/-- C4 (amended): a trailing `:<digits>` token is treated as a port only
when the input has exactly one colon or the part before the last colon is
bracketed; whenever the port is changed the new value lies in 1..65535 —
but that value is the token after the LP64 long-to-int wrap, so a token
numerically outside the range can still change the port
("example.com:4294967380" yields port 84, host "example.com"), and a
token at least 2^63 is clamped to LONG_MAX and wraps to a negative int,
leaving both the port and the whole input unchanged; a bracketed host has
its brackets stripped; and the three example inputs split as the spec
states. -/
theorem splitHostPort_spec : ∀ (inp : Str) (p : Int) (mid : Str),
    ((SplitHostPort inp p).1 ≠ p →
      (exactlyOneColon inp ∨ lastColonBracketed inp = true)) ∧
    ((SplitHostPort inp p).1 ≠ p →
      1 ≤ (SplitHostPort inp p).1 ∧ (SplitHostPort inp p).1 ≤ 65535) ∧
    SplitHostPort ('[' :: mid ++ [']']) p = (p, mid) ∧
    SplitHostPort (("example.com:8080").toList) p = (8080, ("example.com").toList) ∧
    SplitHostPort (("[::1]:8080").toList) p = (8080, ("::1").toList) ∧
    SplitHostPort (("::1").toList) p = (p, ("::1").toList) ∧
    SplitHostPort (("example.com:4294967380").toList) p =
      (84, ("example.com").toList) ∧
    SplitHostPort (("example.com:99999999999999999999").toList) p =
      (p, ("example.com:99999999999999999999").toList) := by
  intro inp p mid
  refine ⟨?_, ?_, splitHostPort_bracketed mid p, rfl, rfl, rfl, rfl, rfl⟩
  · intro hne
    rcases splitHostPort_port_cases inp p with h | h
    · exact absurd h hne
    · exact h.2
  · intro hne
    rcases splitHostPort_port_cases inp p with h | h
    · exact absurd h hne
    · exact h.1

/-- C4 witness: "example.com:8080" with default port 0 changes the port,
satisfies the one-colon condition, and the new port is in range. -/
theorem splitHostPort_spec_witness :
    (SplitHostPort (("example.com:8080").toList) 0).1 ≠ 0 ∧
    (exactlyOneColon (("example.com:8080").toList) ∨
      lastColonBracketed (("example.com:8080").toList) = true) ∧
    1 ≤ (SplitHostPort (("example.com:8080").toList) 0).1 ∧
    (SplitHostPort (("example.com:8080").toList) 0).1 ≤ 65535 :=
  ⟨by decide,
   (splitHostPort_spec (("example.com:8080").toList) 0 []).1 (by decide),
   ((splitHostPort_spec (("example.com:8080").toList) 0 []).2.1 (by decide)).1,
   ((splitHostPort_spec (("example.com:8080").toList) 0 []).2.1 (by decide)).2⟩

theorem alphaGetD (c : Char) (v : Nat) (h : base32Val c = some v) :
    base32Alphabet.getD v (' ') = c := by
  unfold base32Val at h
  split at h
  · rename_i hlt
    have hv : v = base32Alphabet.indexOf c := by
      cases h
      rfl
    subst hv
    rw [List.getD_eq_getElem _ _ hlt]
    exact List.getElem_indexOf hlt
  · cases h

theorem alphaGetD2 (c : Char) (v w : Nat) (h : base32Val c = some v) (hw : w = v) :
    (base32Alphabet[w]?).getD (' ') = c := by
  rw [← List.getD_eq_getElem?_getD, hw]
  exact alphaGetD c v h

theorem base32Val_lt (c : Char) (v : Nat) (h : base32Val c = some v) : v < 32 := by
  unfold base32Val at h
  split at h
  · rename_i hlt
    cases h
    exact hlt.trans_le (by decide)
  · cases h

set_option maxRecDepth 8000 in
theorem decode_encode_sixteen (c0 c1 c2 c3 c4 c5 c6 c7 c8 c9 c10 c11 c12 c13 c14 c15 : Char)
    (v0 v1 v2 v3 v4 v5 v6 v7 v8 v9 v10 v11 v12 v13 v14 v15 : Nat)
    (h0 : base32Val c0 = some v0) (h1 : base32Val c1 = some v1)
    (h2 : base32Val c2 = some v2) (h3 : base32Val c3 = some v3)
    (h4 : base32Val c4 = some v4) (h5 : base32Val c5 = some v5)
    (h6 : base32Val c6 = some v6) (h7 : base32Val c7 = some v7)
    (h8 : base32Val c8 = some v8) (h9 : base32Val c9 = some v9)
    (h10 : base32Val c10 = some v10) (h11 : base32Val c11 = some v11)
    (h12 : base32Val c12 = some v12) (h13 : base32Val c13 = some v13)
    (h14 : base32Val c14 = some v14) (h15 : base32Val c15 = some v15) :
    (decode32Core [v0,v1,v2,v3,v4,v5,v6,v7,v8,v9,v10,v11,v12,v13,v14,v15] 0 0).length
      = 10 ∧
    [(decode32Core [v0,v1,v2,v3,v4,v5,v6,v7,v8,v9,v10,v11,v12,v13,v14,v15] 0 0).getD 0 0,
     (decode32Core [v0,v1,v2,v3,v4,v5,v6,v7,v8,v9,v10,v11,v12,v13,v14,v15] 0 0).getD 1 0,
     (decode32Core [v0,v1,v2,v3,v4,v5,v6,v7,v8,v9,v10,v11,v12,v13,v14,v15] 0 0).getD 2 0,
     (decode32Core [v0,v1,v2,v3,v4,v5,v6,v7,v8,v9,v10,v11,v12,v13,v14,v15] 0 0).getD 3 0,
     (decode32Core [v0,v1,v2,v3,v4,v5,v6,v7,v8,v9,v10,v11,v12,v13,v14,v15] 0 0).getD 4 0,
     (decode32Core [v0,v1,v2,v3,v4,v5,v6,v7,v8,v9,v10,v11,v12,v13,v14,v15] 0 0).getD 5 0,
     (decode32Core [v0,v1,v2,v3,v4,v5,v6,v7,v8,v9,v10,v11,v12,v13,v14,v15] 0 0).getD 6 0,
     (decode32Core [v0,v1,v2,v3,v4,v5,v6,v7,v8,v9,v10,v11,v12,v13,v14,v15] 0 0).getD 7 0,
     (decode32Core [v0,v1,v2,v3,v4,v5,v6,v7,v8,v9,v10,v11,v12,v13,v14,v15] 0 0).getD 8 0,
     (decode32Core [v0,v1,v2,v3,v4,v5,v6,v7,v8,v9,v10,v11,v12,v13,v14,v15] 0 0).getD 9 0]
      = decode32Core [v0,v1,v2,v3,v4,v5,v6,v7,v8,v9,v10,v11,v12,v13,v14,v15] 0 0 ∧
    encode32Core
      [(decode32Core [v0,v1,v2,v3,v4,v5,v6,v7,v8,v9,v10,v11,v12,v13,v14,v15] 0 0).getD 0 0,
       (decode32Core [v0,v1,v2,v3,v4,v5,v6,v7,v8,v9,v10,v11,v12,v13,v14,v15] 0 0).getD 1 0,
       (decode32Core [v0,v1,v2,v3,v4,v5,v6,v7,v8,v9,v10,v11,v12,v13,v14,v15] 0 0).getD 2 0,
       (decode32Core [v0,v1,v2,v3,v4,v5,v6,v7,v8,v9,v10,v11,v12,v13,v14,v15] 0 0).getD 3 0,
       (decode32Core [v0,v1,v2,v3,v4,v5,v6,v7,v8,v9,v10,v11,v12,v13,v14,v15] 0 0).getD 4 0,
       (decode32Core [v0,v1,v2,v3,v4,v5,v6,v7,v8,v9,v10,v11,v12,v13,v14,v15] 0 0).getD 5 0,
       (decode32Core [v0,v1,v2,v3,v4,v5,v6,v7,v8,v9,v10,v11,v12,v13,v14,v15] 0 0).getD 6 0,
       (decode32Core [v0,v1,v2,v3,v4,v5,v6,v7,v8,v9,v10,v11,v12,v13,v14,v15] 0 0).getD 7 0,
       (decode32Core [v0,v1,v2,v3,v4,v5,v6,v7,v8,v9,v10,v11,v12,v13,v14,v15] 0 0).getD 8 0,
       (decode32Core [v0,v1,v2,v3,v4,v5,v6,v7,v8,v9,v10,v11,v12,v13,v14,v15] 0 0).getD 9 0]
      0 0 = [c0,c1,c2,c3,c4,c5,c6,c7,c8,c9,c10,c11,c12,c13,c14,c15] := by
  have b0 := base32Val_lt _ _ h0
  have b1 := base32Val_lt _ _ h1
  have b2 := base32Val_lt _ _ h2
  have b3 := base32Val_lt _ _ h3
  have b4 := base32Val_lt _ _ h4
  have b5 := base32Val_lt _ _ h5
  have b6 := base32Val_lt _ _ h6
  have b7 := base32Val_lt _ _ h7
  have b8 := base32Val_lt _ _ h8
  have b9 := base32Val_lt _ _ h9
  have b10 := base32Val_lt _ _ h10
  have b11 := base32Val_lt _ _ h11
  have b12 := base32Val_lt _ _ h12
  have b13 := base32Val_lt _ _ h13
  have b14 := base32Val_lt _ _ h14
  have b15 := base32Val_lt _ _ h15
  refine ⟨by simp [decode32Core], by simp [decode32Core], ?_⟩
  simp [decode32Core, encode32Core, encode32Push, encode32PushGo]
  exact ⟨alphaGetD2 _ _ _ h0 (by omega), alphaGetD2 _ _ _ h1 (by omega),
    alphaGetD2 _ _ _ h2 (by omega), alphaGetD2 _ _ _ h3 (by omega),
    alphaGetD2 _ _ _ h4 (by omega), alphaGetD2 _ _ _ h5 (by omega),
    alphaGetD2 _ _ _ h6 (by omega), alphaGetD2 _ _ _ h7 (by omega),
    alphaGetD2 _ _ _ h8 (by omega), alphaGetD2 _ _ _ h9 (by omega),
    alphaGetD2 _ _ _ h10 (by omega), alphaGetD2 _ _ _ h11 (by omega),
    alphaGetD2 _ _ _ h12 (by omega), alphaGetD2 _ _ _ h13 (by omega),
    alphaGetD2 _ _ _ h14 (by omega), alphaGetD2 _ _ _ h15 (by omega)⟩

set_option maxRecDepth 8000 in
/-- C5: for every 16-character base32 string `s`, constructing an address
from `s ++ ".onion"` decodes `s` to exactly 10 payload bytes placed after
the 6-byte OnionCat marker, the Tor predicate holds, and `ToStringIP`
reproduces `s ++ ".onion"`. -/
theorem onion_base32_roundtrip (env : NetEnv) (s : Str) (h16 : s.length = 16)
    (hval : s.all (fun c => (base32Val c).isSome) = true) :
    (DecodeBase32 s).length = 10 ∧
    (SetSpecial env zeroAddr (s ++ (".onion").toList)).map CNetAddr.IsTor =
      some true ∧
    (SetSpecial env zeroAddr (s ++ (".onion").toList)).map ipMarker6 =
      some [0xFD, 0x87, 0xD8, 0x7E, 0xEB, 0x43] ∧
    (SetSpecial env zeroAddr (s ++ (".onion").toList)).map ipPayload10 =
      some (DecodeBase32 s) ∧
    (SetSpecial env zeroAddr (s ++ (".onion").toList)).map CNetAddr.ToStringIP =
      some (s ++ (".onion").toList) := by
  rcases s with _|⟨c0,_|⟨c1,_|⟨c2,_|⟨c3,_|⟨c4,_|⟨c5,_|⟨c6,_|⟨c7,_|⟨c8,_|⟨c9,_|⟨c10,_|⟨c11,_|⟨c12,_|⟨c13,_|⟨c14,_|⟨c15,_|⟨c16,s⟩⟩⟩⟩⟩⟩⟩⟩⟩⟩⟩⟩⟩⟩⟩⟩⟩ <;>
    first
      | (exfalso; simp only [List.length_nil, List.length_cons] at h16; omega)
      | skip
  simp only [List.all_cons, List.all_nil, Bool.and_eq_true, and_true] at hval
  obtain ⟨i0, i1, i2, i3, i4, i5, i6, i7, i8, i9, i10, i11, i12, i13, i14, i15⟩ := hval
  obtain ⟨v0, hv0⟩ := Option.isSome_iff_exists.mp i0
  obtain ⟨v1, hv1⟩ := Option.isSome_iff_exists.mp i1
  obtain ⟨v2, hv2⟩ := Option.isSome_iff_exists.mp i2
  obtain ⟨v3, hv3⟩ := Option.isSome_iff_exists.mp i3
  obtain ⟨v4, hv4⟩ := Option.isSome_iff_exists.mp i4
  obtain ⟨v5, hv5⟩ := Option.isSome_iff_exists.mp i5
  obtain ⟨v6, hv6⟩ := Option.isSome_iff_exists.mp i6
  obtain ⟨v7, hv7⟩ := Option.isSome_iff_exists.mp i7
  obtain ⟨v8, hv8⟩ := Option.isSome_iff_exists.mp i8
  obtain ⟨v9, hv9⟩ := Option.isSome_iff_exists.mp i9
  obtain ⟨v10, hv10⟩ := Option.isSome_iff_exists.mp i10
  obtain ⟨v11, hv11⟩ := Option.isSome_iff_exists.mp i11
  obtain ⟨v12, hv12⟩ := Option.isSome_iff_exists.mp i12
  obtain ⟨v13, hv13⟩ := Option.isSome_iff_exists.mp i13
  obtain ⟨v14, hv14⟩ := Option.isSome_iff_exists.mp i14
  obtain ⟨v15, hv15⟩ := Option.isSome_iff_exists.mp i15
  have hflat : ([c0,c1,c2,c3,c4,c5,c6,c7,c8,c9,c10,c11,c12,c13,c14,c15] : Str) ++
      (".onion").toList =
      [c0,c1,c2,c3,c4,c5,c6,c7,c8,c9,c10,c11,c12,c13,c14,c15,'.','o','n','i','o','n'] :=
    rfl
  have hD : DecodeBase32 [c0,c1,c2,c3,c4,c5,c6,c7,c8,c9,c10,c11,c12,c13,c14,c15] =
      decode32Core [v0,v1,v2,v3,v4,v5,v6,v7,v8,v9,v10,v11,v12,v13,v14,v15] 0 0 := by
    simp [DecodeBase32, base32Vals, hv0, hv1, hv2, hv3, hv4, hv5, hv6, hv7, hv8,
      hv9, hv10, hv11, hv12, hv13, hv14, hv15]
  obtain ⟨hlen10, hpay, henc⟩ := decode_encode_sixteen c0 c1 c2 c3 c4 c5 c6 c7 c8
    c9 c10 c11 c12 c13 c14 c15 v0 v1 v2 v3 v4 v5 v6 v7 v8 v9 v10 v11 v12 v13 v14
    v15 hv0 hv1 hv2 hv3 hv4 hv5 hv6 hv7 hv8 hv9 hv10 hv11 hv12 hv13 hv14 hv15
  have hi2p : isStringI2pDestination
      [c0,c1,c2,c3,c4,c5,c6,c7,c8,c9,c10,c11,c12,c13,c14,c15,'.','o','n','i','o','n']
      = false := by
    simp [isStringI2pDestination, isValidI2pB32, isValidI2pAddress, endsWithStr,
      NATIVE_I2P_DESTINATION_SIZE]
  have hset : SetSpecial env zeroAddr
      [c0,c1,c2,c3,c4,c5,c6,c7,c8,c9,c10,c11,c12,c13,c14,c15,'.','o','n','i','o','n'] =
      some (setOnion zeroAddr
        (decode32Core [v0,v1,v2,v3,v4,v5,v6,v7,v8,v9,v10,v11,v12,v13,v14,v15] 0 0)) := by
    simp [SetSpecial, hi2p, hD, hlen10]
  rw [hflat, hD, hset]
  refine ⟨hlen10, rfl, rfl, congrArg some hpay, ?_⟩
  have hts : CNetAddr.ToStringIP (setOnion zeroAddr (decode32Core [v0,v1,v2,v3,v4,v5,v6,v7,v8,v9,v10,v11,v12,v13,v14,v15] 0 0)) =
      encode32Core
        [(decode32Core [v0,v1,v2,v3,v4,v5,v6,v7,v8,v9,v10,v11,v12,v13,v14,v15] 0 0).getD 0 0,
          (decode32Core [v0,v1,v2,v3,v4,v5,v6,v7,v8,v9,v10,v11,v12,v13,v14,v15] 0 0).getD 1 0,
          (decode32Core [v0,v1,v2,v3,v4,v5,v6,v7,v8,v9,v10,v11,v12,v13,v14,v15] 0 0).getD 2 0,
          (decode32Core [v0,v1,v2,v3,v4,v5,v6,v7,v8,v9,v10,v11,v12,v13,v14,v15] 0 0).getD 3 0,
          (decode32Core [v0,v1,v2,v3,v4,v5,v6,v7,v8,v9,v10,v11,v12,v13,v14,v15] 0 0).getD 4 0,
          (decode32Core [v0,v1,v2,v3,v4,v5,v6,v7,v8,v9,v10,v11,v12,v13,v14,v15] 0 0).getD 5 0,
          (decode32Core [v0,v1,v2,v3,v4,v5,v6,v7,v8,v9,v10,v11,v12,v13,v14,v15] 0 0).getD 6 0,
          (decode32Core [v0,v1,v2,v3,v4,v5,v6,v7,v8,v9,v10,v11,v12,v13,v14,v15] 0 0).getD 7 0,
          (decode32Core [v0,v1,v2,v3,v4,v5,v6,v7,v8,v9,v10,v11,v12,v13,v14,v15] 0 0).getD 8 0,
          (decode32Core [v0,v1,v2,v3,v4,v5,v6,v7,v8,v9,v10,v11,v12,v13,v14,v15] 0 0).getD 9 0]
        0 0 ++ ((".onion").toList) := rfl
  have hmap : (some (setOnion zeroAddr (decode32Core [v0,v1,v2,v3,v4,v5,v6,v7,v8,v9,v10,v11,v12,v13,v14,v15] 0 0))).map CNetAddr.ToStringIP =
      some (CNetAddr.ToStringIP (setOnion zeroAddr (decode32Core [v0,v1,v2,v3,v4,v5,v6,v7,v8,v9,v10,v11,v12,v13,v14,v15] 0 0))) := rfl
  rw [hmap, hts, henc]
  exact congrArg some hflat

/-- C5 witness: the 16-character base32 name "anoncoinrocks234" round-trips
through `SetSpecial` and `ToStringIP`. -/
theorem onion_base32_roundtrip_witness :
    ("anoncoinrocks234").toList.length = 16 ∧
    ("anoncoinrocks234").toList.all (fun c => (base32Val c).isSome) = true ∧
    (SetSpecial defaultNetEnv zeroAddr
        (("anoncoinrocks234").toList ++ (".onion").toList)).map CNetAddr.ToStringIP =
      some (("anoncoinrocks234").toList ++ (".onion").toList) :=
  ⟨by decide, by decide,
   (onion_base32_roundtrip defaultNetEnv (("anoncoinrocks234").toList) (by decide)
     (by decide)).2.2.2.2⟩
